import Mathlib

/-!
Verification of the Smart-Parking backend (src/app.py) against its
natural-language specification.

The SQLite tables are embedded as Lean lists; the occupied flag is a Bool.
SQL float division (occupied / total) is modelled with exact rationals.
The constant seed data of init_db and the three endpoint handlers
(get_spots, allocate_spot, release_spot) are translated line by line.
-/

/-- The floor column: the code only ever stores the strings
"Parking 1" and "Parking 2". -/
inductive Floor where
  | P1   -- the string "Parking 1"
  | P2   -- the string "Parking 2"
deriving DecidableEq, Repr

/-- The spot_type column: the strings "Standard" and "Premium". -/
inductive SpotType where
  | Standard
  | Premium
deriving DecidableEq, Repr

/-- One row of the ParkingSpots table. is_occupied is stored as 0/1 in
SQLite; we embed it as a Bool. -/
structure Spot where
  spot_id : Nat
  floor : Floor
  spot_type : SpotType
  is_occupied : Bool
deriving DecidableEq, Repr

/-- One row of the Users table. -/
structure User where
  user_id : Nat
  role : String
  is_premium : Bool
deriving DecidableEq, Repr

/-- The ParkingSpots table, in storage (rowid = spot_id) order. -/
abbrev SpotTable := List Spot

/-- SELECT COUNT over one floor where is_occupied = 1. -/
def occupiedCount (s : SpotTable) (f : Floor) : Nat :=
  (s.filter (fun sp => sp.floor == f && sp.is_occupied)).length

/-- SELECT COUNT(spot_id) over one floor. -/
def totalCount (s : SpotTable) (f : Floor) : Nat :=
  (s.filter (fun sp => sp.floor == f)).length

/-- Density of one floor, from get_least_dense_floor:
occupied / total if total > 0 else 1.0; a floor absent from the GROUP BY
result (zero rows) falls back to density_map.get default 1.0, which this
definition also yields since its totalCount is 0.  The Python float
division is modelled with exact rationals. -/
def density (s : SpotTable) (f : Floor) : ℚ :=
  if 0 < totalCount s f then (occupiedCount s f : ℚ) / (totalCount s f : ℚ) else 1

/-- get_least_dense_floor: start with least_dense_floor = Parking 1 and
min_density = density of Parking 1; switch to Parking 2 only when its
density is strictly smaller. -/
def get_least_dense_floor (s : SpotTable) : Floor :=
  if density s Floor.P2 < density s Floor.P1 then Floor.P2 else Floor.P1

/-- The WHERE clause of the four allocation queries: optional floor
filter, spot_type filter, is_occupied = 0. -/
def matchesQuery (f? : Option Floor) (t : SpotType) (sp : Spot) : Bool :=
  (match f? with
   | some f => sp.floor == f
   | none => true) && sp.spot_type == t && !sp.is_occupied

/-- The spot_id column of all rows matched by one allocation query. -/
def freeIds (s : SpotTable) (f? : Option Floor) (t : SpotType) : List Nat :=
  (s.filter (matchesQuery f? t)).map Spot.spot_id

/-- SELECT spot_id ... WHERE floor = f AND spot_type = t AND
is_occupied = 0 ORDER BY spot_id ASC LIMIT 1. -/
def lowestFreeSpot (s : SpotTable) (f : Floor) (t : SpotType) : Option Nat :=
  (freeIds s (some f) t).min?

/-- The same query without the floor filter (the overflow fallback). -/
def lowestFreeAny (s : SpotTable) (t : SpotType) : Option Nat :=
  (freeIds s none t).min?

/-- The row function of UPDATE ParkingSpots SET is_occupied = v WHERE
spot_id = sid. -/
def setOccupied (v : Bool) (sid : Nat) (sp : Spot) : Spot :=
  if sp.spot_id == sid then Spot.mk sp.spot_id sp.floor sp.spot_type v else sp

/-- UPDATE ParkingSpots SET is_occupied = 1 WHERE spot_id = sid. -/
def markOccupied (s : SpotTable) (sid : Nat) : SpotTable :=
  s.map (setOccupied true sid)

/-- UPDATE ParkingSpots SET is_occupied = 0 WHERE spot_id = sid. -/
def markFree (s : SpotTable) (sid : Nat) : SpotTable :=
  s.map (setOccupied false sid)

/-- The spot-selection part of the allocate_spot handler: target floor,
then the four queries run in order, each only while allocated_spot_id is
still None. -/
def allocate_choice (s : SpotTable) (is_premium : Bool) : Option Nat :=
  let target_floor := get_least_dense_floor s
  let afterPremium : Option Nat :=
    if is_premium then lowestFreeSpot s target_floor SpotType.Premium else none
  let afterStandard : Option Nat :=
    match afterPremium with
    | some i => some i
    | none => lowestFreeSpot s target_floor SpotType.Standard
  match afterStandard with
  | some i => some i
  | none =>
    let anyPremium : Option Nat :=
      if is_premium then lowestFreeAny s SpotType.Premium else none
    match anyPremium with
    | some i => some i
    | none => lowestFreeAny s SpotType.Standard

/-- Outcome of the allocate_spot endpoint. -/
inductive AllocResult where
  | success (spot_id : Nat)   -- 200, with allocated_spot_id
  | missingInput              -- 400 "User ID is required"
  | userNotFound              -- 404 "Invalid User ID."
  | noCapacity                -- 409 "All spots are currently occupied."
deriving DecidableEq, Repr

/-- The allocate_spot handler.  The user_id field of the request is an
Option; the Python truthiness check rejects both None and 0. -/
def allocate_spot (users : List User) (s : SpotTable) (uid? : Option Nat) :
    AllocResult × SpotTable :=
  match uid? with
  | none => (AllocResult.missingInput, s)
  | some uid =>
    if uid == 0 then (AllocResult.missingInput, s)
    else
      match users.find? (fun u => u.user_id == uid) with
      | none => (AllocResult.userNotFound, s)
      | some u =>
        match allocate_choice s u.is_premium with
        | some i => (AllocResult.success i, markOccupied s i)
        | none => (AllocResult.noCapacity, s)

/-- Outcome of the release_spot endpoint. -/
inductive ReleaseResult where
  | success                   -- 200 "Spot released."
  | missingInput              -- 400 "Spot ID is required"
  | spotNotFound              -- 404 "Spot ID does not exist."
  | alreadyFree               -- 409 "Spot is already free."
deriving DecidableEq, Repr

/-- The release_spot handler: truthiness check on spot_id, then
SELECT is_occupied WHERE spot_id = sid (fetchone = first matching row),
then the three outcomes. -/
def release_spot (s : SpotTable) (sid? : Option Nat) :
    ReleaseResult × SpotTable :=
  match sid? with
  | none => (ReleaseResult.missingInput, s)
  | some sid =>
    if sid == 0 then (ReleaseResult.missingInput, s)
    else
      match s.find? (fun sp => sp.spot_id == sid) with
      | none => (ReleaseResult.spotNotFound, s)
      | some sp =>
        if sp.is_occupied then (ReleaseResult.success, markFree s sid)
        else (ReleaseResult.alreadyFree, s)

/-- The get_spots handler: SELECT * FROM ParkingSpots.  SQLite returns the
rows of this INTEGER PRIMARY KEY table in rowid = spot_id storage order,
which is the order of the embedded list. -/
def get_spots (s : SpotTable) : List Spot := s

/-- The 20 seed rows inserted by init_db, in insertion order.  Rows 13-20
come from the Python loop for i in range(13, 21) with is_occupied = 1
exactly when i is even. -/
def seedSpots : SpotTable :=
  [Spot.mk 1 Floor.P1 SpotType.Premium true,
   Spot.mk 2 Floor.P1 SpotType.Premium false,
   Spot.mk 3 Floor.P1 SpotType.Premium true,
   Spot.mk 4 Floor.P1 SpotType.Premium false,
   Spot.mk 5 Floor.P1 SpotType.Standard false,
   Spot.mk 6 Floor.P1 SpotType.Standard true,
   Spot.mk 7 Floor.P1 SpotType.Standard false,
   Spot.mk 8 Floor.P1 SpotType.Standard true,
   Spot.mk 9 Floor.P1 SpotType.Standard false,
   Spot.mk 10 Floor.P1 SpotType.Standard true,
   Spot.mk 11 Floor.P2 SpotType.Premium true,
   Spot.mk 12 Floor.P2 SpotType.Premium false,
   Spot.mk 13 Floor.P2 SpotType.Standard false,
   Spot.mk 14 Floor.P2 SpotType.Standard true,
   Spot.mk 15 Floor.P2 SpotType.Standard false,
   Spot.mk 16 Floor.P2 SpotType.Standard true,
   Spot.mk 17 Floor.P2 SpotType.Standard false,
   Spot.mk 18 Floor.P2 SpotType.Standard true,
   Spot.mk 19 Floor.P2 SpotType.Standard false,
   Spot.mk 20 Floor.P2 SpotType.Standard true]

/-- The three seed users inserted by init_db. -/
def seedUsers : List User :=
  [User.mk 101 "Teacher" true,
   User.mk 102 "Student" false,
   User.mk 103 "Premium Student" true]

/-- States of the ParkingSpots table reachable from the init_db seed data
through the two mutating endpoints, with the fixed seed users. -/
inductive Reachable : SpotTable → Prop where
  | seed : Reachable seedSpots
  | alloc (uid? : Option Nat) (s : SpotTable) :
      Reachable s → Reachable (allocate_spot seedUsers s uid?).2
  | rel (sid? : Option Nat) (s : SpotTable) :
      Reachable s → Reachable (release_spot s sid?).2

/-- Spec-side description of one cascade step succeeding: the id belongs
to a free spot matching the query and is the lowest such id. -/
def IsLowestFreeId (s : SpotTable) (f? : Option Floor) (t : SpotType) (i : Nat) : Prop :=
  i ∈ freeIds s f? t ∧ ∀ j ∈ freeIds s f? t, i ≤ j

/-- Spec-side description of one cascade step failing: no free spot
matches the query. -/
def NoFreeId (s : SpotTable) (f? : Option Floor) (t : SpotType) : Prop :=
  freeIds s f? t = []

theorem isLowestFreeId_iff (s : SpotTable) (f? : Option Floor) (t : SpotType) (i : Nat) :
    IsLowestFreeId s f? t i ↔ (freeIds s f? t).min? = some i :=
  (List.min?_eq_some_iff').symm

theorem noFreeId_iff (s : SpotTable) (f? : Option Floor) (t : SpotType) :
    NoFreeId s f? t ↔ (freeIds s f? t).min? = none :=
  (List.min?_eq_none_iff).symm

theorem freeIds_mono_mem (s : SpotTable) (f : Floor) (t : SpotType) (i : Nat)
    (h : i ∈ freeIds s (some f) t) : i ∈ freeIds s none t := by
  unfold freeIds at *
  simp only [List.mem_map, List.mem_filter] at *
  obtain ⟨sp, ⟨hsp, hq⟩, rfl⟩ := h
  refine ⟨sp, ⟨hsp, ?_⟩, rfl⟩
  unfold matchesQuery at *
  simp_all

theorem min?_none_mono (s : SpotTable) (f : Floor) (t : SpotType)
    (h : (freeIds s none t).min? = none) : (freeIds s (some f) t).min? = none := by
  rw [List.min?_eq_none_iff] at *
  rcases hx : freeIds s (some f) t with _ | ⟨a, l⟩
  · rfl
  · exfalso
    have ha := freeIds_mono_mem s f t a (by rw [hx]; exact List.mem_cons_self a l)
    simp [h] at ha

/-- C1: allocate_spot follows the priority cascade in order: premium users
first get the lowest-id free Premium spot on the target floor; otherwise
everyone gets the lowest-id free Standard spot on the target floor; then,
for premium users, the lowest-id free Premium spot anywhere; then the
lowest-id free Standard spot anywhere; the first step producing a spot
determines the result, and the allocation fails (NoCapacity) exactly when
every step fails. -/
theorem allocate_choice_cascade (s : SpotTable) (p : Bool) :
    (∀ i, allocate_choice s p = some i ↔
      (p = true ∧ IsLowestFreeId s (some (get_least_dense_floor s)) SpotType.Premium i)
      ∨ ((p = false ∨ NoFreeId s (some (get_least_dense_floor s)) SpotType.Premium)
          ∧ IsLowestFreeId s (some (get_least_dense_floor s)) SpotType.Standard i)
      ∨ ((p = false ∨ NoFreeId s (some (get_least_dense_floor s)) SpotType.Premium)
          ∧ NoFreeId s (some (get_least_dense_floor s)) SpotType.Standard
          ∧ p = true ∧ IsLowestFreeId s none SpotType.Premium i)
      ∨ ((p = false ∨ NoFreeId s (some (get_least_dense_floor s)) SpotType.Premium)
          ∧ NoFreeId s (some (get_least_dense_floor s)) SpotType.Standard
          ∧ (p = false ∨ NoFreeId s none SpotType.Premium)
          ∧ IsLowestFreeId s none SpotType.Standard i))
    ∧ (allocate_choice s p = none ↔
        (p = false ∨ NoFreeId s none SpotType.Premium) ∧ NoFreeId s none SpotType.Standard) := by
  constructor
  · intro i
    cases p with
    | false =>
      simp only [allocate_choice, lowestFreeSpot, lowestFreeAny, isLowestFreeId_iff, noFreeId_iff]
      cases h2 : (freeIds s (some (get_least_dense_floor s)) SpotType.Standard).min? with
      | some j =>
        cases h4 : (freeIds s none SpotType.Standard).min? with
        | some k => simp [h2, h4]
        | none => have := min?_none_mono s (get_least_dense_floor s) SpotType.Standard h4
                  simp [this] at h2
      | none =>
        cases h4 : (freeIds s none SpotType.Standard).min? with
        | some k => simp [h2, h4]
        | none => simp [h2, h4]
    | true =>
      simp only [allocate_choice, lowestFreeSpot, lowestFreeAny, isLowestFreeId_iff, noFreeId_iff]
      cases h1 : (freeIds s (some (get_least_dense_floor s)) SpotType.Premium).min? with
      | some j =>
        simp [h1]
      | none =>
        cases h2 : (freeIds s (some (get_least_dense_floor s)) SpotType.Standard).min? with
        | some j => simp [h1, h2]
        | none =>
          cases h3 : (freeIds s none SpotType.Premium).min? with
          | some k => simp [h1, h2, h3]
          | none =>
            cases h4 : (freeIds s none SpotType.Standard).min? with
            | some m => simp [h1, h2, h3, h4]
            | none => simp [h1, h2, h3, h4]
  · cases p with
    | false =>
      simp only [allocate_choice, lowestFreeSpot, lowestFreeAny, noFreeId_iff]
      cases h4 : (freeIds s none SpotType.Standard).min? with
      | some k =>
        cases h2 : (freeIds s (some (get_least_dense_floor s)) SpotType.Standard).min? with
        | some j => simp [h2, h4]
        | none => simp [h2, h4]
      | none =>
        have h2 := min?_none_mono s (get_least_dense_floor s) SpotType.Standard h4
        simp [h2, h4]
    | true =>
      simp only [allocate_choice, lowestFreeSpot, lowestFreeAny, noFreeId_iff]
      cases h3 : (freeIds s none SpotType.Premium).min? with
      | some k =>
        cases h1 : (freeIds s (some (get_least_dense_floor s)) SpotType.Premium).min? with
        | some j => simp [h1, h3]
        | none =>
          cases h2 : (freeIds s (some (get_least_dense_floor s)) SpotType.Standard).min? with
          | some j => simp [h1, h2, h3]
          | none => simp [h1, h2, h3]
      | none =>
        have h1 := min?_none_mono s (get_least_dense_floor s) SpotType.Premium h3
        cases h2 : (freeIds s (some (get_least_dense_floor s)) SpotType.Standard).min? with
        | some j =>
          cases h4 : (freeIds s none SpotType.Standard).min? with
          | some m => simp [h1, h2, h3, h4]
          | none => have := min?_none_mono s (get_least_dense_floor s) SpotType.Standard h4
                    simp [this] at h2
        | none =>
          cases h4 : (freeIds s none SpotType.Standard).min? with
          | some m => simp [h1, h2, h3, h4]
          | none => simp [h1, h2, h3, h4]

theorem occupiedCount_le_totalCount (s : SpotTable) (f : Floor) :
    occupiedCount s f ≤ totalCount s f := by
  unfold occupiedCount totalCount
  have h : s.filter (fun sp => sp.floor == f && sp.is_occupied)
      = (s.filter (fun sp => sp.floor == f)).filter (fun sp => sp.is_occupied) := by
    rw [List.filter_filter]
    congr 1
    funext sp
    cases hf : sp.floor == f <;> cases ho : sp.is_occupied <;> simp [hf, ho]
  rw [h]
  exact List.length_filter_le _ _

theorem density_nonneg (s : SpotTable) (f : Floor) : 0 ≤ density s f := by
  unfold density
  split
  · positivity
  · norm_num

theorem density_le_one (s : SpotTable) (f : Floor) : density s f ≤ 1 := by
  unfold density
  split
  · rename_i h
    rw [div_le_one (by exact_mod_cast h)]
    exact_mod_cast occupiedCount_le_totalCount s f
  · norm_num

/-- C3: density of a floor is occupied / total, lies in [0,1], and a floor
with zero spots has density 1 and is therefore never strictly less dense
than any floor. -/
theorem density_in_unit_interval (s : SpotTable) (f : Floor) :
    0 ≤ density s f ∧ density s f ≤ 1
    ∧ (0 < totalCount s f →
        density s f = (occupiedCount s f : ℚ) / (totalCount s f : ℚ))
    ∧ (totalCount s f = 0 →
        density s f = 1 ∧ ∀ g : Floor, ¬ density s f < density s g) := by
  refine ⟨density_nonneg s f, density_le_one s f, ?_, ?_⟩
  · intro h
    unfold density
    rw [if_pos h]
  · intro h
    have h1 : density s f = 1 := by
      unfold density
      rw [if_neg (by omega)]
    refine ⟨h1, fun g hlt => ?_⟩
    rw [h1] at hlt
    exact absurd hlt (not_lt.mpr (density_le_one s g))

/-- C3 witness: evaluated on the empty table, whose floors are empty. -/
theorem density_in_unit_interval_witness :
    0 ≤ density [] Floor.P2 ∧ density [] Floor.P2 ≤ 1
    ∧ (0 < totalCount [] Floor.P2 →
        density [] Floor.P2 = (occupiedCount [] Floor.P2 : ℚ) / (totalCount [] Floor.P2 : ℚ))
    ∧ (totalCount [] Floor.P2 = 0 →
        density [] Floor.P2 = 1 ∧ ∀ g : Floor, ¬ density [] Floor.P2 < density [] g) :=
  density_in_unit_interval [] Floor.P2

/-- C2: the target floor is Parking 2 exactly when its density is strictly
below that of Parking 1; in particular equal densities give Parking 1. -/
theorem target_floor_tiebreak (s : SpotTable) :
    (get_least_dense_floor s = Floor.P2 ↔ density s Floor.P2 < density s Floor.P1)
    ∧ (density s Floor.P2 = density s Floor.P1 → get_least_dense_floor s = Floor.P1) := by
  constructor
  · unfold get_least_dense_floor
    split
    · rename_i h
      simp [h]
    · rename_i h
      simp [h]
  · intro h
    unfold get_least_dense_floor
    rw [h]
    simp
/-- C2 witness: evaluated on the seed table, where both densities are equal. -/
theorem target_floor_tiebreak_witness :
    (get_least_dense_floor seedSpots = Floor.P2
      ↔ density seedSpots Floor.P2 < density seedSpots Floor.P1)
    ∧ (density seedSpots Floor.P2 = density seedSpots Floor.P1
      → get_least_dense_floor seedSpots = Floor.P1) :=
  target_floor_tiebreak seedSpots

/-- C10: a request carrying id 0 is rejected by the Python truthiness
check as a missing-id 400 error, not as an unknown-id 404 error, and the
table is unchanged. -/
theorem zero_id_rejected (users : List User) (s : SpotTable) :
    allocate_spot users s (some 0) = (AllocResult.missingInput, s)
    ∧ release_spot s (some 0) = (ReleaseResult.missingInput, s)
    ∧ AllocResult.missingInput ≠ AllocResult.userNotFound
    ∧ ReleaseResult.missingInput ≠ ReleaseResult.spotNotFound :=
  ⟨rfl, rfl, by decide, by decide⟩

theorem setOccupied_of_eq (v : Bool) (sid : Nat) (sp : Spot) (h : sp.spot_id = sid) :
    setOccupied v sid sp = Spot.mk sp.spot_id sp.floor sp.spot_type v := by
  unfold setOccupied
  rw [if_pos (by simpa using h)]

theorem setOccupied_of_ne (v : Bool) (sid : Nat) (sp : Spot) (h : ¬ sp.spot_id = sid) :
    setOccupied v sid sp = sp := by
  unfold setOccupied
  rw [if_neg (by simpa using h)]

theorem spot_id_unique (s : SpotTable) (hnd : (s.map Spot.spot_id).Nodup)
    {i j : Nat} {sp sq : Spot} (hi : s[i]? = some sp) (hj : s[j]? = some sq)
    (heq : sp.spot_id = sq.spot_id) : i = j := by
  obtain ⟨hi', hig⟩ := List.getElem?_eq_some_iff.mp hi
  obtain ⟨hj', hjg⟩ := List.getElem?_eq_some_iff.mp hj
  have hmi : i < (s.map Spot.spot_id).length := by simpa using hi'
  have hmj : j < (s.map Spot.spot_id).length := by simpa using hj'
  refine (@List.Nodup.getElem_inj_iff _ _ hnd i hmi j hmj).mp ?_
  simp [hig, hjg, heq]

theorem mark_frame (s : SpotTable) (v : Bool) (sid : Nat)
    (hnd : (s.map Spot.spot_id).Nodup)
    {i : Nat} {sp : Spot} (hi : s[i]? = some sp) (hid : sp.spot_id = sid) :
    (s.map (setOccupied v sid))[i]? = some (Spot.mk sp.spot_id sp.floor sp.spot_type v)
    ∧ ∀ j : Nat, j ≠ i → (s.map (setOccupied v sid))[j]? = s[j]? := by
  constructor
  · rw [List.getElem?_map, hi]
    simp [setOccupied_of_eq v sid sp hid]
  · intro j hji
    rw [List.getElem?_map]
    cases hj : s[j]? with
    | none => rfl
    | some sq =>
      simp only [Option.map_some']
      rw [setOccupied_of_ne v sid sq ?_]
      intro hsq
      exact hji (spot_id_unique s hnd hj hi (by rw [hsq, hid]))

theorem mem_freeIds (s : SpotTable) (f? : Option Floor) (t : SpotType) (i : Nat)
    (h : i ∈ freeIds s f? t) :
    ∃ sp ∈ s, sp.spot_id = i ∧ sp.is_occupied = false ∧ sp.spot_type = t := by
  unfold freeIds matchesQuery at h
  simp only [List.mem_map, List.mem_filter, Bool.and_eq_true, Bool.not_eq_true'] at h
  obtain ⟨sp, ⟨hsp, ⟨hf, ht⟩, ho⟩, rfl⟩ := h
  exact ⟨sp, hsp, rfl, ho, by simpa using ht⟩

theorem allocate_choice_some_free (s : SpotTable) (p : Bool) (i : Nat)
    (h : allocate_choice s p = some i) :
    ∃ sp ∈ s, sp.spot_id = i ∧ sp.is_occupied = false := by
  have key : i ∈ freeIds s (some (get_least_dense_floor s)) SpotType.Premium
      ∨ i ∈ freeIds s (some (get_least_dense_floor s)) SpotType.Standard
      ∨ i ∈ freeIds s none SpotType.Premium
      ∨ i ∈ freeIds s none SpotType.Standard := by
    unfold allocate_choice lowestFreeSpot lowestFreeAny at h
    cases p with
    | false =>
      cases h2 : (freeIds s (some (get_least_dense_floor s)) SpotType.Standard).min? with
      | some j =>
        simp [h2] at h
        exact Or.inr (Or.inl (h ▸ (List.min?_eq_some_iff'.mp h2).1))
      | none =>
        cases h4 : (freeIds s none SpotType.Standard).min? with
        | some k =>
          simp [h2, h4] at h
          exact Or.inr (Or.inr (Or.inr (h ▸ (List.min?_eq_some_iff'.mp h4).1)))
        | none => simp [h2, h4] at h
    | true =>
      cases h1 : (freeIds s (some (get_least_dense_floor s)) SpotType.Premium).min? with
      | some j =>
        simp [h1] at h
        exact Or.inl (h ▸ (List.min?_eq_some_iff'.mp h1).1)
      | none =>
        cases h2 : (freeIds s (some (get_least_dense_floor s)) SpotType.Standard).min? with
        | some j =>
          simp [h1, h2] at h
          exact Or.inr (Or.inl (h ▸ (List.min?_eq_some_iff'.mp h2).1))
        | none =>
          cases h3 : (freeIds s none SpotType.Premium).min? with
          | some k =>
            simp [h1, h2, h3] at h
            exact Or.inr (Or.inr (Or.inl (h ▸ (List.min?_eq_some_iff'.mp h3).1)))
          | none =>
            cases h4 : (freeIds s none SpotType.Standard).min? with
            | some m =>
              simp [h1, h2, h3, h4] at h
              exact Or.inr (Or.inr (Or.inr (h ▸ (List.min?_eq_some_iff'.mp h4).1)))
            | none => simp [h1, h2, h3, h4] at h
  rcases key with hk | hk | hk | hk <;>
  · obtain ⟨sp, hsp, hid, ho, -⟩ := mem_freeIds _ _ _ _ hk
    exact ⟨sp, hsp, hid, ho⟩

/-- C4: with a known user and distinct spot ids, allocation either succeeds,
turning the occupied flag of exactly one previously-free spot to true and
returning the id of that spot while every other position of the table is
unchanged, or fails with NoCapacity leaving the table unchanged. -/
theorem allocate_marks_exactly_one (users : List User) (s : SpotTable) (uid : Nat) (u : User)
    (hu : uid ≠ 0)
    (hfind : users.find? (fun x => x.user_id == uid) = some u)
    (hnd : (s.map Spot.spot_id).Nodup) :
    (∃ i : Nat, ∃ sp : Spot, s[i]? = some sp ∧ sp.is_occupied = false
      ∧ (allocate_spot users s (some uid)).1 = AllocResult.success sp.spot_id
      ∧ (allocate_spot users s (some uid)).2[i]?
          = some (Spot.mk sp.spot_id sp.floor sp.spot_type true)
      ∧ ∀ j : Nat, j ≠ i → (allocate_spot users s (some uid)).2[j]? = s[j]?)
    ∨ ((allocate_spot users s (some uid)).1 = AllocResult.noCapacity
        ∧ (allocate_spot users s (some uid)).2 = s) := by
  have hstep : allocate_spot users s (some uid) =
      match allocate_choice s u.is_premium with
      | some i => (AllocResult.success i, markOccupied s i)
      | none => (AllocResult.noCapacity, s) := by
    unfold allocate_spot
    simp [hu, hfind]
  cases hc : allocate_choice s u.is_premium with
  | none =>
    right
    rw [hstep, hc]
    exact ⟨rfl, rfl⟩
  | some d =>
    left
    obtain ⟨sp, hmem, hid, hocc⟩ := allocate_choice_some_free s u.is_premium d hc
    obtain ⟨i, hi⟩ := List.mem_iff_getElem?.mp hmem
    obtain ⟨hpos, hframe⟩ := mark_frame s true d hnd hi hid
    refine ⟨i, sp, hi, hocc, ?_, ?_, ?_⟩
    · rw [hstep, hc, hid]
    · rw [hstep, hc]
      exact hpos
    · intro j hji
      rw [hstep, hc]
      exact hframe j hji

/-- C4 witness: the seed table with the standard seed user 102. -/
theorem allocate_marks_exactly_one_witness :
    (∃ i : Nat, ∃ sp : Spot, seedSpots[i]? = some sp ∧ sp.is_occupied = false
      ∧ (allocate_spot seedUsers seedSpots (some 102)).1 = AllocResult.success sp.spot_id
      ∧ (allocate_spot seedUsers seedSpots (some 102)).2[i]?
          = some (Spot.mk sp.spot_id sp.floor sp.spot_type true)
      ∧ ∀ j : Nat, j ≠ i → (allocate_spot seedUsers seedSpots (some 102)).2[j]? = seedSpots[j]?)
    ∨ ((allocate_spot seedUsers seedSpots (some 102)).1 = AllocResult.noCapacity
        ∧ (allocate_spot seedUsers seedSpots (some 102)).2 = seedSpots) :=
  allocate_marks_exactly_one seedUsers seedSpots 102 (User.mk 102 "Student" false)
    (by decide) (by decide) (by decide)

/-- C9: a successful release clears the occupied flag of the one spot with
the given id, previously occupied, and changes nothing else: every other
position of the table, and every other field of the released row, is
unchanged. -/
theorem release_changes_only_flag (s : SpotTable) (sid : Nat)
    (hnd : (s.map Spot.spot_id).Nodup)
    (hsucc : (release_spot s (some sid)).1 = ReleaseResult.success) :
    ∃ i : Nat, ∃ sp : Spot, s[i]? = some sp ∧ sp.spot_id = sid ∧ sp.is_occupied = true
      ∧ (release_spot s (some sid)).2[i]?
          = some (Spot.mk sp.spot_id sp.floor sp.spot_type false)
      ∧ ∀ j : Nat, j ≠ i → (release_spot s (some sid)).2[j]? = s[j]? := by
  by_cases h0 : sid = 0
  · rw [h0] at hsucc
    simp only [release_spot] at hsucc
    simp at hsucc
  · cases hf : s.find? (fun sp => sp.spot_id == sid) with
    | none =>
      exfalso
      unfold release_spot at hsucc
      simp [h0, hf] at hsucc
    | some sp =>
      have hmem : sp ∈ s := List.mem_of_find?_eq_some hf
      have hid : sp.spot_id = sid := by
        have := List.find?_some hf
        simpa using this
      cases ho : sp.is_occupied with
      | false =>
        exfalso
        unfold release_spot at hsucc
        simp [h0, hf, ho] at hsucc
      | true =>
        have hrel : release_spot s (some sid) = (ReleaseResult.success, markFree s sid) := by
          unfold release_spot
          simp [h0, hf, ho]
        obtain ⟨i, hi⟩ := List.mem_iff_getElem?.mp hmem
        obtain ⟨hpos, hframe⟩ := mark_frame s false sid hnd hi hid
        refine ⟨i, sp, hi, hid, ho, ?_, ?_⟩
        · rw [hrel]
          exact hpos
        · intro j hji
          rw [hrel]
          exact hframe j hji

/-- C9 witness: releasing the occupied seed spot 1. -/
theorem release_changes_only_flag_witness :
    ∃ i : Nat, ∃ sp : Spot, seedSpots[i]? = some sp ∧ sp.spot_id = 1 ∧ sp.is_occupied = true
      ∧ (release_spot seedSpots (some 1)).2[i]?
          = some (Spot.mk sp.spot_id sp.floor sp.spot_type false)
      ∧ ∀ j : Nat, j ≠ i → (release_spot seedSpots (some 1)).2[j]? = seedSpots[j]? :=
  release_changes_only_flag seedSpots 1 (by decide) (by decide)

theorem occupiedCount_seed_P1 : occupiedCount seedSpots Floor.P1 = 5 := by decide
theorem totalCount_seed_P1 : totalCount seedSpots Floor.P1 = 10 := by decide
theorem occupiedCount_seed_P2 : occupiedCount seedSpots Floor.P2 = 5 := by decide
theorem totalCount_seed_P2 : totalCount seedSpots Floor.P2 = 10 := by decide

theorem density_seed_P1 : density seedSpots Floor.P1 = 1/2 := by
  rw [density, occupiedCount_seed_P1, totalCount_seed_P1]
  norm_num

theorem density_seed_P2 : density seedSpots Floor.P2 = 1/2 := by
  rw [density, occupiedCount_seed_P2, totalCount_seed_P2]
  norm_num

theorem target_seed : get_least_dense_floor seedSpots = Floor.P1 := by
  rw [get_least_dense_floor, density_seed_P1, density_seed_P2]
  simp

theorem choice_seed_std : allocate_choice seedSpots false = some 5 := by
  rw [allocate_choice, target_seed]
  decide

theorem choice_seed_prem : allocate_choice seedSpots true = some 2 := by
  rw [allocate_choice, target_seed]
  decide


theorem spot_id_setOccupied (v : Bool) (sid : Nat) (sp : Spot) :
    (setOccupied v sid sp).spot_id = sp.spot_id := by
  unfold setOccupied
  split <;> rfl

/-- C5: release fails with spotNotFound when the id is unknown, with
alreadyFree when the spot is already free, and otherwise clears the flag
and succeeds; releasing an occupied spot twice yields success then
alreadyFree, with the flag false after the first call. -/
theorem release_error_cases (s : SpotTable) (sid : Nat) (hs : sid ≠ 0) :
    (s.find? (fun sp => sp.spot_id == sid) = none →
      release_spot s (some sid) = (ReleaseResult.spotNotFound, s))
    ∧ (∀ sp, s.find? (fun sp => sp.spot_id == sid) = some sp → sp.is_occupied = false →
      release_spot s (some sid) = (ReleaseResult.alreadyFree, s))
    ∧ (∀ sp, s.find? (fun sp => sp.spot_id == sid) = some sp → sp.is_occupied = true →
      (release_spot s (some sid)).1 = ReleaseResult.success
      ∧ (((release_spot s (some sid)).2.find? (fun sp => sp.spot_id == sid)).map
          Spot.is_occupied = some false)
      ∧ (release_spot (release_spot s (some sid)).2 (some sid)).1
          = ReleaseResult.alreadyFree) := by
  refine ⟨?_, ?_, ?_⟩
  · intro hf
    unfold release_spot
    simp [hs, hf]
  · intro sp hf ho
    unfold release_spot
    simp [hs, hf, ho]
  · intro sp hf ho
    have hid : sp.spot_id = sid := by
      have := List.find?_some hf
      simpa using this
    have hrel : release_spot s (some sid) = (ReleaseResult.success, markFree s sid) := by
      unfold release_spot
      simp [hs, hf, ho]
    have hfind2 : (markFree s sid).find? (fun sp => sp.spot_id == sid)
        = some (Spot.mk sp.spot_id sp.floor sp.spot_type false) := by
      unfold markFree
      rw [List.find?_map]
      have hcomp : ((fun sp => sp.spot_id == sid) ∘ setOccupied false sid)
          = (fun sp => sp.spot_id == sid) := by
        funext x
        simp [Function.comp, spot_id_setOccupied]
      rw [hcomp, hf]
      simp [setOccupied_of_eq false sid sp hid]
    refine ⟨by rw [hrel], ?_, ?_⟩
    · rw [hrel]
      simp [hfind2]
    · rw [hrel]
      unfold release_spot
      simp [hs, hfind2]

/-- C5 witness: seed spot 1 is occupied; releasing it twice yields success
then alreadyFree. -/
theorem release_error_cases_witness :
    (seedSpots.find? (fun sp => sp.spot_id == 1) = none →
      release_spot seedSpots (some 1) = (ReleaseResult.spotNotFound, seedSpots))
    ∧ (∀ sp, seedSpots.find? (fun sp => sp.spot_id == 1) = some sp → sp.is_occupied = false →
      release_spot seedSpots (some 1) = (ReleaseResult.alreadyFree, seedSpots))
    ∧ (∀ sp, seedSpots.find? (fun sp => sp.spot_id == 1) = some sp → sp.is_occupied = true →
      (release_spot seedSpots (some 1)).1 = ReleaseResult.success
      ∧ (((release_spot seedSpots (some 1)).2.find? (fun sp => sp.spot_id == 1)).map
          Spot.is_occupied = some false)
      ∧ (release_spot (release_spot seedSpots (some 1)).2 (some 1)).1
          = ReleaseResult.alreadyFree) :=
  release_error_cases seedSpots 1 (by decide)

theorem freeIds_mem_of (s : SpotTable) (t : SpotType) (sp : Spot) (f : Floor)
    (hsp : sp ∈ s) (hf : sp.floor = f) (ht : sp.spot_type = t) (ho : sp.is_occupied = false) :
    sp.spot_id ∈ freeIds s (some f) t := by
  unfold freeIds matchesQuery
  simp only [List.mem_map, List.mem_filter]
  refine ⟨sp, ⟨hsp, ?_⟩, rfl⟩
  simp [hf, ht, ho]

theorem mem_unique_of_nodup (s : SpotTable) (hnd : (s.map Spot.spot_id).Nodup)
    {sp sq : Spot} (hsp : sp ∈ s) (hsq : sq ∈ s) (h : sp.spot_id = sq.spot_id) :
    sp = sq := by
  obtain ⟨a, ha⟩ := List.mem_iff_getElem?.mp hsp
  obtain ⟨b, hb⟩ := List.mem_iff_getElem?.mp hsq
  have hab : a = b := spot_id_unique s hnd ha hb h
  rw [hab] at ha
  rw [ha] at hb
  exact Option.some.inj hb

/-- C6: when the target floor has at least one free Premium spot, a
premium user is never allocated a Standard spot of the target floor: the
Premium step of the cascade runs first. -/
theorem premium_priority (s : SpotTable)
    (hnd : (s.map Spot.spot_id).Nodup)
    (hfree : ∃ sp ∈ s, sp.floor = get_least_dense_floor s
        ∧ sp.spot_type = SpotType.Premium ∧ sp.is_occupied = false)
    (i : Nat) (hi : allocate_choice s true = some i) :
    ∀ sp ∈ s, sp.spot_id = i →
      ¬(sp.floor = get_least_dense_floor s ∧ sp.spot_type = SpotType.Standard) := by
  obtain ⟨sp0, hsp0, hf0, ht0, ho0⟩ := hfree
  have hmem0 : sp0.spot_id ∈ freeIds s (some (get_least_dense_floor s)) SpotType.Premium :=
    freeIds_mem_of s SpotType.Premium sp0 (get_least_dense_floor s) hsp0 hf0 ht0 ho0
  cases h1 : (freeIds s (some (get_least_dense_floor s)) SpotType.Premium).min? with
  | none =>
    rw [List.min?_eq_none_iff] at h1
    rw [h1] at hmem0
    simp at hmem0
  | some j =>
    have hstep : allocate_choice s true = some j := by
      unfold allocate_choice lowestFreeSpot
      simp [h1]
    rw [hstep] at hi
    have hij : j = i := Option.some.inj hi
    have hjmem : j ∈ freeIds s (some (get_least_dense_floor s)) SpotType.Premium :=
      (List.min?_eq_some_iff'.mp h1).1
    obtain ⟨sq, hsq, hqid, hqocc, hqt⟩ := mem_freeIds _ _ _ _ hjmem
    intro sp hsp hspi hc
    have heq : sp = sq := mem_unique_of_nodup s hnd hsp hsq (by rw [hspi, hqid, hij])
    rw [heq] at hc
    rw [hqt] at hc
    exact absurd hc.2 (by decide)

/-- C6 witness: the seed table, where the target floor Parking 1 has free
Premium spot 2, the premium cascade returns spot 2, and the row with id 2
is not a Standard spot of the target floor. -/
theorem premium_priority_witness :
    ¬((Spot.mk 2 Floor.P1 SpotType.Premium false).floor = get_least_dense_floor seedSpots
      ∧ (Spot.mk 2 Floor.P1 SpotType.Premium false).spot_type = SpotType.Standard) :=
  premium_priority seedSpots (by decide)
    ⟨Spot.mk 2 Floor.P1 SpotType.Premium false, by
      refine ⟨by decide, ?_, by decide, by decide⟩
      show Floor.P1 = get_least_dense_floor seedSpots
      exact target_seed.symm⟩
    2 choice_seed_prem
    (Spot.mk 2 Floor.P1 SpotType.Premium false) (by decide) (by decide)

theorem alloc_state_cases (users : List User) (s : SpotTable) (uid? : Option Nat) :
    (allocate_spot users s uid?).2 = s
    ∨ ∃ d, (allocate_spot users s uid?).2 = markOccupied s d := by
  unfold allocate_spot
  cases uid? with
  | none => exact Or.inl rfl
  | some uid =>
    by_cases h0 : uid = 0
    · simp [h0]
    · cases hf : users.find? (fun u => u.user_id == uid) with
      | none => simp [h0, hf]
      | some u =>
        cases hc : allocate_choice s u.is_premium with
        | none => simp [h0, hf, hc]
        | some d =>
          simp [h0, hf, hc]

theorem rel_state_cases (s : SpotTable) (sid? : Option Nat) :
    (release_spot s sid?).2 = s ∨ ∃ d, (release_spot s sid?).2 = markFree s d := by
  unfold release_spot
  cases sid? with
  | none => exact Or.inl rfl
  | some sid =>
    by_cases h0 : sid = 0
    · simp [h0]
    · cases hf : s.find? (fun sp => sp.spot_id == sid) with
      | none => simp [h0, hf]
      | some sp =>
        cases ho : sp.is_occupied with
        | false => simp [h0, hf, ho]
        | true =>
          simp [h0, hf, ho]

theorem pairwise_map_setOccupied (s : SpotTable) (v : Bool) (sid : Nat)
    (h : List.Pairwise (fun a b => a.spot_id < b.spot_id) s) :
    List.Pairwise (fun a b => a.spot_id < b.spot_id) (s.map (setOccupied v sid)) := by
  rw [List.pairwise_map]
  refine h.imp ?_
  intro a b hab
  simpa [spot_id_setOccupied] using hab

/-- C7: on every table state the backend can reach, get_spots returns the
complete table, and its rows are in strictly ascending spot_id order. -/
theorem get_spots_sorted (s : SpotTable) (h : Reachable s) :
    get_spots s = s
    ∧ List.Pairwise (fun a b => a.spot_id < b.spot_id) (get_spots s) := by
  refine ⟨rfl, ?_⟩
  show List.Pairwise (fun a b => a.spot_id < b.spot_id) s
  induction h with
  | seed => decide
  | alloc uid? s0 _ ih =>
    rcases alloc_state_cases seedUsers s0 uid? with he | ⟨d, he⟩
    · rw [he]
      exact ih
    · rw [he]
      exact pairwise_map_setOccupied s0 true d ih
  | rel sid? s0 _ ih =>
    rcases rel_state_cases s0 sid? with he | ⟨d, he⟩
    · rw [he]
      exact ih
    · rw [he]
      exact pairwise_map_setOccupied s0 false d ih

/-- C7 witness: the seed state itself. -/
theorem get_spots_sorted_witness :
    get_spots seedSpots = seedSpots
    ∧ List.Pairwise (fun a b => a.spot_id < b.spot_id) (get_spots seedSpots) :=
  get_spots_sorted seedSpots Reachable.seed

/-- C8: from the exact seed data, both floors have density one half, the
tie-break targets Parking 1, spot 5 is the lowest free Standard id there,
and allocating the standard seed user 102 returns spot 5 and marks it
occupied. -/
theorem seed_standard_scenario :
    density seedSpots Floor.P1 = 1/2
    ∧ density seedSpots Floor.P2 = 1/2
    ∧ get_least_dense_floor seedSpots = Floor.P1
    ∧ IsLowestFreeId seedSpots (some Floor.P1) SpotType.Standard 5
    ∧ allocate_spot seedUsers seedSpots (some 102)
        = (AllocResult.success 5, markOccupied seedSpots 5) := by
  refine ⟨density_seed_P1, density_seed_P2, target_seed, List.min?_eq_some_iff'.mp (by decide), ?_⟩
  simp [allocate_spot, seedUsers, List.find?_cons, choice_seed_std]
